import Mathlib

/-!
# SKINID — verification of the scoring / recommendation core

Shallow embedding of the deterministic scoring and recommendation engine of
the SKINID skin-analysis application.  JavaScript numbers are modelled as
rationals (`ℚ`) where fractional values can occur and as integers (`ℤ`) for
the canonical 0–100 metric channels (which are produced by `Math.floor` /
`Math.round` upstream).  `Math.round` is round-half-up, `Math.floor` is the
integer floor.  Wall-clock timestamps (`Date.now()`) attached to records are
external inputs and are omitted from the embedded records; none of the
embedded computations read them.
-/

/-- JavaScript `Math.round`: round half toward positive infinity. -/
def jsRound (x : ℚ) : ℤ := ⌊x + 1/2⌋

/-- Lower-case a string character-wise (JS `String.prototype.toLowerCase`
on the ASCII ingredient text used by the program). -/
def lowerStr (s : String) : String := String.mk (s.data.map Char.toLower)

/-- `isPrefixL pat l` : `pat` is a prefix of `l`. -/
def isPrefixL : List Char → List Char → Bool
  | [], _ => true
  | _ :: _, [] => false
  | a :: as, b :: bs => a == b && isPrefixL as bs

/-- `occursIn pat l` : `pat` occurs as a contiguous substring of `l`. -/
def occursIn (pat : List Char) : List Char → Bool
  | [] => pat.isEmpty
  | c :: t => isPrefixL pat (c :: t) || occursIn pat t

/-- JS `s.includes(sub)` : substring containment. -/
def strIncl (s sub : String) : Bool := occursIn sub.data s.data

/-- JS `Array.prototype.join(' ')`. -/
def joinSpace (l : List String) : String := String.intercalate " " l

namespace Vision

/-- `normalizeScore` from `src/services/visionService.ts` (identical copies
in `src/unnamed/part_002` and the vision portion of
`src/services/geminiService.ts`):
`Math.floor(Math.max(18, Math.min(98, raw)))`. -/
def normalizeScore (raw : ℚ) : ℤ := ⌊max 18 (min 98 raw)⌋

end Vision

namespace Gemini

/-- The per-channel blend from `src/services/geminiService.ts` line 186:
`(local, ai) => Math.round((local * 0.20) + (ai * 0.80))`.
(`local` is a Lean keyword, so the first parameter is named `loc`.) -/
def blend (loc ai : ℚ) : ℤ := jsRound (loc * (20/100) + ai * (80/100))

end Gemini

/-- The canonical `SkinMetrics` record (`types.ts`): 14 numeric channels,
integer-valued after normalization/blending (higher = healthier). -/
structure SkinMetrics where
  overallScore : ℤ
  acneActive : ℤ
  acneScars : ℤ
  poreSize : ℤ
  blackheads : ℤ
  wrinkleFine : ℤ
  wrinkleDeep : ℤ
  sagging : ℤ
  pigmentation : ℤ
  redness : ℤ
  texture : ℤ
  hydration : ℤ
  oiliness : ℤ
  darkCircles : ℤ
deriving DecidableEq

/-- User preferences; only the `goals` list is read by the embedded logic. -/
structure UserPreferences where
  goals : List String
deriving DecidableEq

/-- `UserProfile`: biometrics plus optional preferences
(`userProfile.preferences?.goals || []`). -/
structure UserProfile where
  biometrics : SkinMetrics
  preferences : Option UserPreferences
deriving DecidableEq

/-- A ranked concern: `{ id, score }`. -/
structure Concern where
  id : String
  score : ℤ
deriving DecidableEq

/-- `userProfile.preferences?.goals || []`. -/
def goalsOf (prefs : Option UserPreferences) : List String :=
  match prefs with
  | some p => p.goals
  | none => []

/-- The initial 13-channel concern list (identical in
`getClinicalPrescription`, `src/services/geminiService.ts` 342–352, and the
`prescription` memo, `src/components/SkinAnalysisReport.tsx` 369–377). -/
def baseConcerns (m : SkinMetrics) : List Concern :=
  [⟨"acneActive", m.acneActive⟩, ⟨"acneScars", m.acneScars⟩,
   ⟨"pigmentation", m.pigmentation⟩, ⟨"redness", m.redness⟩,
   ⟨"wrinkleFine", m.wrinkleFine⟩, ⟨"wrinkleDeep", m.wrinkleDeep⟩,
   ⟨"hydration", m.hydration⟩, ⟨"oiliness", m.oiliness⟩,
   ⟨"poreSize", m.poreSize⟩, ⟨"blackheads", m.blackheads⟩,
   ⟨"texture", m.texture⟩, ⟨"sagging", m.sagging⟩,
   ⟨"darkCircles", m.darkCircles⟩]

/-- Clinical-gravity adjustment: `acneActive` −15, `redness` −10
(both sources, identical `map`). -/
def clinicalGravity (l : List Concern) : List Concern :=
  l.map (fun c =>
    if c.id = "acneActive" then ⟨c.id, c.score - 15⟩
    else if c.id = "redness" then ⟨c.id, c.score - 10⟩
    else c)

/-- `findIndex` + in-place `score -= amt` on the first concern with id
`cid` (the preference nudge of both sources). -/
def nudge (cid : String) (amt : ℤ) : List Concern → List Concern
  | [] => []
  | c :: cs => if c.id = cid then ⟨c.id, c.score - amt⟩ :: cs else c :: nudge cid amt cs

/-- The two goal nudges (−5 each), as written in `getClinicalPrescription`
(no outer guard) and inside the `goals.length > 0` block of the report memo
(identical text). -/
def applyGoalNudges (goals : List String) (l : List Concern) : List Concern :=
  let l1 := if goals.contains "Look Younger & Firm" then nudge "wrinkleFine" 5 l else l
  if goals.contains "Clear Acne & Blemishes" then nudge "acneActive" 5 l1 else l1

/-- The report memo wraps the goal nudges in `if (goals.length > 0)`. -/
def reportGoalStep (goals : List String) (l : List Concern) : List Concern :=
  if 0 < goals.length then applyGoalNudges goals l else l

/-- Stable insertion: `x` is placed before the first element whose score is
not smaller. -/
def insertAsc (x : Concern) : List Concern → List Concern
  | [] => [x]
  | y :: ys => if y.score < x.score then y :: insertAsc x ys else x :: y :: ys

/-- Stable ascending sort by score.  Models ES2019 `Array.prototype.sort`
with comparator `(a, b) => a.score - b.score`: for a comparator that is a
total preorder, a stable sort has a unique output (sorted by score, ties in
original order), which this insertion sort produces. -/
def sortAsc : List Concern → List Concern
  | [] => []
  | x :: xs => insertAsc x (sortAsc xs)

/-- Ranked concern list of `getClinicalPrescription`. -/
def rankedConcernsG (m : SkinMetrics) (goals : List String) : List Concern :=
  sortAsc (applyGoalNudges goals (clinicalGravity (baseConcerns m)))

/-- Ranked concern list of the report `prescription` memo. -/
def rankedConcernsR (m : SkinMetrics) (goals : List String) : List Concern :=
  sortAsc (reportGoalStep goals (clinicalGravity (baseConcerns m)))

/-- First-occurrence deduplication of strings with an accumulator of already
seen values: the semantics of JS `[...new Set(xs)]`. -/
def dedupStrings (seen : List String) : List String → List String
  | [] => []
  | x :: xs => if x ∈ seen then dedupStrings seen xs else x :: dedupStrings (x :: seen) xs

namespace Gemini

/-- The `switch (concern.id)` ingredient table of `getClinicalPrescription`. -/
def concernActives (cid : String) : List String :=
  if cid = "acneActive" then ["Salicylic Acid", "Benzoyl Peroxide"]
  else if cid = "acneScars" then ["Azelaic Acid", "Niacinamide"]
  else if cid = "pigmentation" then ["Vitamin C", "Tranexamic Acid"]
  else if cid = "redness" then ["Centella", "Panthenol"]
  else if cid = "wrinkleFine" then ["Retinol", "Peptides"]
  else if cid = "wrinkleDeep" then ["Retinal", "Growth Factors"]
  else if cid = "hydration" then ["Hyaluronic Acid", "Polyglutamic Acid"]
  else if cid = "oiliness" then ["Niacinamide", "Green Tea"]
  else if cid = "poreSize" then ["BHA", "Niacinamide"]
  else if cid = "blackheads" then ["Salicylic Acid", "Clay"]
  else if cid = "texture" then ["Glycolic Acid", "Urea"]
  else if cid = "sagging" then ["Copper Peptides", "Vitamin C"]
  else if cid = "darkCircles" then ["Caffeine"]
  else []

/-- `topConcerns.forEach(...ingredients.push(...))`. -/
def pushActives : List Concern → List String
  | [] => []
  | c :: cs => concernActives c.id ++ pushActives cs

/-- Result of `getClinicalPrescription`. -/
structure Prescription where
  prescribedActives : List String
  avoid : List String
  topConcerns : List String
deriving DecidableEq

/-- `getClinicalPrescription` (`src/services/geminiService.ts` 342–400). -/
def getClinicalPrescription (up : UserProfile) : Prescription :=
  let m := up.biometrics
  let top := (rankedConcernsG m (goalsOf up.preferences)).take 3
  let prescribedActives := (dedupStrings [] (pushActives top)).take 4
  let avoid :=
    (if m.redness < 65 then ["Fragrance", "Alcohol Denat", "Essential Oils"] else []) ++
    (if m.hydration < 55 then ["Clay Masks", "SLS", "High % Acids"] else []) ++
    (if m.acneActive < 65 then ["Coconut Oil", "Shea Butter"] else [])
  ⟨prescribedActives,
   if avoid = [] then ["Harsh Physical Scrubs"] else avoid,
   top.map (fun c => c.id)⟩

end Gemini

namespace Report

/-- Prescribed ingredient entry `{ name, action }` of the report memo. -/
structure RxIngredient where
  name : String
  action : String
deriving DecidableEq

/-- The `switch (concern.id)` table of the report `prescription` memo
(`src/components/SkinAnalysisReport.tsx` 409–425). -/
def concernPairs (cid : String) : List RxIngredient :=
  if cid = "acneActive" then
    [⟨"Salicylic Acid", "Unclogs pores & clears acne."⟩, ⟨"Benzoyl Peroxide", "Kills acne bacteria."⟩]
  else if cid = "acneScars" then
    [⟨"Azelaic Acid", "Fades post-acne redness."⟩, ⟨"Niacinamide", "Fades dark spots."⟩]
  else if cid = "pigmentation" then
    [⟨"Vitamin C", "Brightens skin tone."⟩, ⟨"Tranexamic Acid", "Prevents pigment transfer."⟩]
  else if cid = "redness" then
    [⟨"Centella", "Soothes inflammation."⟩, ⟨"Panthenol", "Strengthens barrier."⟩]
  else if cid = "wrinkleFine" then
    [⟨"Retinol", "Smooths fine lines."⟩, ⟨"Peptides", "Boosts collagen."⟩]
  else if cid = "wrinkleDeep" then
    [⟨"Retinal", "Reduces deep wrinkles."⟩, ⟨"Growth Factors", "Deep tissue repair."⟩]
  else if cid = "hydration" then
    [⟨"Hyaluronic Acid", "Deep hydration."⟩, ⟨"Polyglutamic Acid", "Locks in moisture."⟩]
  else if cid = "oiliness" then
    [⟨"Niacinamide", "Balances oil production."⟩, ⟨"Green Tea", "Antioxidant & Oil control."⟩]
  else if cid = "poreSize" then
    [⟨"BHA", "Cleans out pores."⟩, ⟨"Niacinamide", "Tightens pore appearance."⟩]
  else if cid = "blackheads" then
    [⟨"Salicylic Acid", "Dissolves blackheads."⟩, ⟨"Clay", "Absorbs excess oil."⟩]
  else if cid = "texture" then
    [⟨"Glycolic Acid", "Exfoliates surface."⟩, ⟨"Urea", "Softens rough skin."⟩]
  else if cid = "sagging" then
    [⟨"Copper Peptides", "Firms skin."⟩, ⟨"Vitamin C", "Boosts firmness."⟩]
  else if cid = "darkCircles" then
    [⟨"Caffeine", "Depuffs eyes."⟩]
  else []

/-- `topConcerns.forEach(...ingredients.push(...))` (pair version). -/
def pushPairs : List Concern → List RxIngredient
  | [] => []
  | c :: cs => concernPairs c.id ++ pushPairs cs

/-- First-occurrence dedup by name: the semantics of
`ingredients.filter((v,i,a) => a.findIndex(t => t.name===v.name) === i)`. -/
def dedupPairs (seen : List String) : List RxIngredient → List RxIngredient
  | [] => []
  | x :: xs => if x.name ∈ seen then dedupPairs seen xs else x :: dedupPairs (x.name :: seen) xs

/-- Result of the report `prescription` memo. -/
structure Prescription where
  topConcerns : List Concern
  ingredients : List RxIngredient
  avoid : List String
deriving DecidableEq

/-- The `prescription` memo (`src/components/SkinAnalysisReport.tsx`
367–435).  Note the avoid rule
`metrics.acneActive < 65 || metrics.oiliness < 55` adding `Mineral Oil`,
unlike the service-layer version. -/
def prescription (m : SkinMetrics) (prefs : Option UserPreferences) : Prescription :=
  let top := (rankedConcernsR m (goalsOf prefs)).take 3
  let uniqueIngredients := (dedupPairs [] (pushPairs top)).take 4
  let avoid :=
    (if m.redness < 65 then ["Fragrance", "Alcohol Denat", "Essential Oils"] else []) ++
    (if m.hydration < 55 then ["Clay Masks", "SLS", "High % Acids"] else []) ++
    (if m.acneActive < 65 ∨ m.oiliness < 55 then ["Coconut Oil", "Shea Butter", "Mineral Oil"] else [])
  ⟨top, uniqueIngredients, if avoid = [] then ["Harsh Physical Scrubs"] else avoid⟩

/-- The `vehicleMap` allow-list of the routine allocator
(`src/components/SkinAnalysisReport.tsx` 442–449); `vehicleMap[slot.type]?`
on a key outside the table yields no matches, modelled by `[]`. -/
def vehicleMap (slotType : String) : List String :=
  if slotType = "CLEANSER" then
    ["Salicylic Acid", "Benzoyl Peroxide", "Glycolic Acid", "Lactic Acid", "BHA", "AHA", "Tea Tree", "Oat"]
  else if slotType = "TONER" then
    ["Glycolic Acid", "Salicylic Acid", "Lactic Acid", "BHA", "AHA", "Centella", "Green Tea"]
  else if slotType = "SERUM" then
    ["Retinol", "Retinal", "Vitamin C", "Niacinamide", "Tranexamic Acid", "Alpha Arbutin", "Peptides", "Copper Peptides", "Azelaic Acid"]
  else if slotType = "MOISTURIZER" then
    ["Ceramides", "Urea", "Peptides", "Centella", "Panthenol", "Squalane", "Hyaluronic Acid"]
  else if slotType = "SPF" then
    ["Zinc Oxide", "Titanium Dioxide", "Vitamin C", "Niacinamide"]
  else if slotType = "TREATMENT" then
    ["Benzoyl Peroxide", "Salicylic Acid", "Adapalene", "Azelaic Acid", "Retinol", "Tretinoin", "Sulfur"]
  else []

/-- `getFormulation` (skin-type × slot-type formulation descriptor). -/
def getFormulation (m : SkinMetrics) (step : String) : String :=
  let isOily : Bool := decide (m.oiliness < 50)
  let isDry : Bool := decide (m.hydration < 55) || decide (80 < m.oiliness)
  let isSensitive : Bool := decide (m.redness < 60)
  if step = "CLEANSER" then
    if isOily then "Foaming Gel"
    else if isDry then "Milky Lotion"
    else if isSensitive then "Fragrance-Free Gel"
    else "Gentle Gel"
  else if step = "TONER" then
    if isOily then "Light Liquid" else if isDry then "Milky Essence" else "Hydrating Mist"
  else if step = "SERUM" then
    if isOily then "Water-based" else if isDry then "Oil-in-Water Emulsion" else "Lightweight Fluid"
  else if step = "MOISTURIZER" then
    if isOily then "Gel-Cream" else if isDry then "Rich Cream or Balm" else "Light Cream"
  else if step = "SPF" then
    if isOily then "Matte / Oil-Free" else if isSensitive then "Mineral (Zinc Based)" else "Invisible Finish"
  else if step = "TREATMENT" then "Spot Gel"
  else "Standard"

/-- A routine slot `{ key, type, time }`. -/
structure Slot where
  key : String
  type : String
  time : String
deriving DecidableEq

/-- `slotsToFill` (`src/components/SkinAnalysisReport.tsx` 488–498): the
fixed processing order. -/
def slotsToFill : List Slot :=
  [⟨"SERUM_PM", "SERUM", "PM"⟩, ⟨"CLEANSER_PM", "CLEANSER", "PM"⟩,
   ⟨"TREATMENT_PM", "TREATMENT", "PM"⟩, ⟨"SERUM_AM", "SERUM", "AM"⟩,
   ⟨"CLEANSER_AM", "CLEANSER", "AM"⟩, ⟨"TONER_AM", "TONER", "AM"⟩,
   ⟨"TONER_PM", "TONER", "PM"⟩, ⟨"MOISTURIZER_PM", "MOISTURIZER", "PM"⟩,
   ⟨"SPF_AM", "SPF", "AM"⟩]

/-- `['Retinol','Retinal','Growth Factors','Glycolic Acid','AHA'].some(x => ing.name.includes(x))`. -/
def isPMOnly (n : String) : Bool :=
  (["Retinol", "Retinal", "Growth Factors", "Glycolic Acid", "AHA"]).any (fun x => strIncl n x)

/-- `['Vitamin C','SPF'].some(x => ing.name.includes(x))`. -/
def isAMOnly (n : String) : Bool :=
  (["Vitamin C", "SPF"]).any (fun x => strIncl n x)

/-- The `for (const ing of sortedActiveNeeds) ... potentialMatches.push(ing)`
loop with its three `continue` guards, as an order-preserving filter. -/
def potentialMatches (slot : Slot) (used : List String) (needs : List RxIngredient) :
    List RxIngredient :=
  needs.filter (fun ing =>
    decide (¬ ing.name ∈ used) &&
    ((vehicleMap slot.type).any (fun v => strIncl ing.name v)) &&
    !(slot.time == "AM" && isPMOnly ing.name) &&
    !(slot.time == "PM" && isAMOnly ing.name))

/-- A slot recommendation record. -/
structure RoutineRecommendation where
  ingredients : List String
  vehicle : String
  formulation : String
  benefit : String
  actionType : String
deriving DecidableEq

/-- The fallback `fallbackIngs` variable of the allocator. -/
def fallbackIngs (m : SkinMetrics) (slot : Slot) : List String :=
  let isOily : Bool := decide (m.oiliness < 50)
  if slot.type = "CLEANSER" then
    if isOily then ["Salicylic Acid", "Tea Tree"] else ["Glycerin", "Ceramides"]
  else if slot.type = "TONER" then ["Hyaluronic Acid", "Rose Water"]
  else if slot.type = "SERUM" then
    if slot.time = "AM" then ["Vitamin E", "Ferulic Acid"] else ["Peptides", "Niacinamide"]
  else if slot.type = "MOISTURIZER" then ["Ceramides", "Squalane"]
  else if slot.type = "SPF" then ["Zinc Oxide", "Avobenzone"]
  else if slot.type = "TREATMENT" then ["Spot Treatment", "Patches"]
  else []

/-- The fallback `fallbackBenefit` variable of the allocator. -/
def fallbackBenefit (m : SkinMetrics) (slot : Slot) : String :=
  let isOily : Bool := decide (m.oiliness < 50)
  if slot.type = "CLEANSER" then
    if isOily then "Oil Control" else "Gentle Cleansing"
  else if slot.type = "TONER" then "pH Balance"
  else if slot.type = "SERUM" then
    if slot.time = "AM" then "Antioxidant Protection" else "Repair & Recovery"
  else if slot.type = "MOISTURIZER" then "Barrier Support"
  else if slot.type = "SPF" then "UV Defense"
  else if slot.type = "TREATMENT" then "Targeted Correction"
  else "Maintenance"

/-- The fallback record written to `plan[slot.key]` when no prescribed
ingredient matches. -/
def fallbackRec (m : SkinMetrics) (slot : Slot) : RoutineRecommendation :=
  ⟨fallbackIngs m slot, slot.type, getFormulation m slot.type,
   fallbackBenefit m slot, "Essential Step"⟩

/-- One iteration of `slotsToFill.forEach(slot => ...)`: fills `slot` from
the unused prescribed ingredients (primary = first match, up to 2
alternatives; only the primary is added to `usedIngredients`), else the
fallback.  State is (plan-so-far, usedIngredients). -/
def fillSlot (m : SkinMetrics) (needs : List RxIngredient)
    (st : List (String × RoutineRecommendation) × List String) (slot : Slot) :
    List (String × RoutineRecommendation) × List String :=
  match potentialMatches slot st.2 needs with
  | [] => (st.1 ++ [(slot.key, fallbackRec m slot)], st.2)
  | primary :: rest =>
      (st.1 ++ [(slot.key,
        ⟨primary.name :: (rest.take 2).map RxIngredient.name, slot.type,
         getFormulation m slot.type, primary.action,
         if slot.type = "CLEANSER" then "Wash-off Treatment" else "Leave-on Active"⟩)],
       st.2 ++ [primary.name])

/-- The routine allocator as a function of an arbitrary prescription
ingredient list (`sortedActiveNeeds`) and metrics. -/
def routinePlanWith (needs : List RxIngredient) (m : SkinMetrics) :
    List (String × RoutineRecommendation) :=
  (slotsToFill.foldl (fillSlot m needs) ([], [])).1

/-- The `routinePlan` memo (`src/components/SkinAnalysisReport.tsx`
437–574): allocator applied to the report prescription. -/
def routinePlan (m : SkinMetrics) (prefs : Option UserPreferences) :
    List (String × RoutineRecommendation) :=
  routinePlanWith (prescription m prefs).ingredients m

/-- Two plan entries have distinct primaries whenever both were filled from
the prescription (`actionType ≠ "Essential Step"`). -/
def distinctPrimaries (e1 e2 : String × RoutineRecommendation) : Prop :=
  e1.2.actionType ≠ "Essential Step" → e2.2.actionType ≠ "Essential Step" →
    e1.2.ingredients.head? ≠ e2.2.ingredients.head?

/-- Invariant carried through the slot fold: primaries assigned so far are
pairwise distinct, and every assigned primary is recorded in
`usedIngredients`. -/
def planUsedInv (st : List (String × RoutineRecommendation) × List String) : Prop :=
  st.1.Pairwise distinctPrimaries ∧
  ∀ e ∈ st.1, e.2.actionType ≠ "Essential Step" →
    ∃ p, e.2.ingredients.head? = some p ∧ p ∈ st.2

end Report

namespace Gemini

/-- A scanned `Product` (`types.ts`); the fields `id`, `risks`, `benefits`
and `dateScanned` are not read by the audited logic (id and scan date are
external identity/wall-clock data) and are omitted. -/
structure Product where
  name : String
  brand : String
  ingredients : List String
  suitabilityScore : ℤ
  type : String
deriving DecidableEq

/-- The makeup product types checked by the auditor. -/
def makeupTypes : List String :=
  ["FOUNDATION", "CONCEALER", "POWDER", "PRIMER", "BLUSH", "BRONZER"]

/-- The `warnings` array built by `auditProduct`
(`src/services/geminiService.ts` 403–425): entries are (reason, severity),
pushed in source order. -/
def auditWarnings (p : Product) (up : UserProfile) : List (String × String) :=
  let metrics := up.biometrics
  let ing := joinSpace (p.ingredients.map lowerStr)
  let isMakeup := makeupTypes.contains p.type
  (if metrics.redness < 60 then
    (if strIncl ing "retinol" || strIncl ing "glycolic" then
      [("Potentially too harsh for sensitive skin.", "HIGH")] else []) ++
    (if strIncl ing "fragrance" || strIncl ing "parfum" then
      [("Contains fragrance which may irritate.", "MEDIUM")] else []) ++
    (if isMakeup && (strIncl ing "bismuth oxychloride" || strIncl ing "alcohol denat") then
      [("Contains common makeup irritants for sensitive skin.", "MEDIUM")] else [])
  else []) ++
  (if metrics.acneActive < 60 then
    (if strIncl ing "coconut oil" || strIncl ing "shea butter" ||
        strIncl ing "isopropyl myristate" || strIncl ing "ethylhexyl palmitate" then
      [("Potential pore-clogging ingredients detected.", "MEDIUM")] else []) ++
    (if isMakeup && (strIncl ing "algae extract" || strIncl ing "acetylated lanolin") then
      [("High comedogenic risk in this cosmetic.", "HIGH")] else [])
  else [])

/-- `auditProduct` : (warnings, adjustedScore).  −15 per warning, +10 when
any currently prescribed active occurs in the ingredient text, clamped to
[10, 100]. -/
def auditProduct (p : Product) (up : UserProfile) : List (String × String) × ℤ :=
  let warnings := auditWarnings p up
  let ing := joinSpace (p.ingredients.map lowerStr)
  let adjusted1 : ℤ :=
    if 0 < warnings.length then p.suitabilityScore - warnings.length * 15
    else p.suitabilityScore
  let matchList := (getClinicalPrescription up).prescribedActives.filter
    (fun a => strIncl ing (lowerStr a))
  let adjusted2 := if 0 < matchList.length then adjusted1 + 10 else adjusted1
  (warnings, min 100 (max 10 adjusted2))

/-- `countHas` of `analyzeShelfHealth`: how many products contain one of
the terms in their joined, lower-cased ingredient text. -/
def countHas (products : List Product) (terms : List String) : ℕ :=
  (products.filter (fun p =>
    terms.any (fun t => strIncl (lowerStr (joinSpace p.ingredients)) (lowerStr t)))).length

/-- `exfoliantCount`. -/
def exfoliantCount (products : List Product) : ℕ :=
  countHas products ["glycolic", "salicylic", "lactic", "retinol", "tretinoin",
    "adapalene", "mandelic", "bha", "aha"]

/-- `hydrationCount`. -/
def hydrationCount (products : List Product) : ℕ :=
  countHas products ["ceramide", "hyaluronic", "glycerin", "panthenol", "squalane", "centella"]

/-- `protectionCount`. -/
def protectionCount (products : List Product) : ℕ :=
  countHas products ["zinc oxide", "titanium", "vitamin c", "niacinamide", "tocopherol", "spf"]

/-- `treatmentCount`. -/
def treatmentCount (products : List Product) : ℕ :=
  countHas products ["benzoyl", "azelaic", "peptide", "retinol", "salicylic"]

/-- The combined lower-cased ingredient text of the whole shelf. -/
def textAllIng (products : List Product) : String :=
  joinSpace ((products.map (fun p => p.ingredients.map lowerStr)).flatten)

/-- `analysis.riskyProducts`: per-product audit entries (name, first warning
reason) in shelf order, then the `Makeup SPF Only` entry when makeup
carries SPF but no dedicated SPF product exists. -/
def shelfRiskyProducts (products : List Product) (up : UserProfile) : List (String × String) :=
  (products.filterMap (fun p =>
    match (auditProduct p up).1 with
    | [] => none
    | w :: _ => some (p.name, w.1))) ++
  (if 0 < (products.filter (fun p => makeupTypes.contains p.type)).length ∧
      (products.filter (fun p => makeupTypes.contains p.type)).any (fun p =>
        p.ingredients.any (fun i => strIncl (lowerStr i) "titanium" ||
          strIncl (lowerStr i) "zinc" || strIncl (lowerStr i) "octinoxate")) ∧
      ¬ products.any (fun p => p.type == "SPF")
   then [("Makeup SPF Only", "SPF in makeup is insufficient for full protection.")]
   else [])

/-- `analysis.conflicts`: the two fixed conflict pairs, by substring
co-occurrence over the combined ingredient text. -/
def shelfConflicts (products : List Product) : List String :=
  (if strIncl (textAllIng products) "retinol" &&
      (strIncl (textAllIng products) "glycolic" || strIncl (textAllIng products) "salicylic")
   then ["Retinol + Exfoliating Acids (High irritation risk)"] else []) ++
  (if strIncl (textAllIng products) "benzoyl" && strIncl (textAllIng products) "retinol"
   then ["Benzoyl Peroxide + Retinol (May deactivate each other)"] else [])

/-- `analysis.missing`: the double-cleanse entry (makeup present, fewer
than 2 cleansers, no oil/balm/micellar product name), then the three
essential categories. -/
def shelfMissing (products : List Product) : List String :=
  (if 0 < (products.filter (fun p => makeupTypes.contains p.type)).length ∧
      (products.filter (fun p => p.type == "CLEANSER")).length < 2 ∧
      ¬ products.any (fun p => strIncl (lowerStr p.name) "oil" ||
        strIncl (lowerStr p.name) "balm" || strIncl (lowerStr p.name) "micellar")
   then ["Double Cleanse (Oil/Balm) to remove makeup"] else []) ++
  (if ¬ products.any (fun p => p.type == "CLEANSER") then ["Cleanser"] else []) ++
  (if ¬ products.any (fun p => p.type == "MOISTURIZER") then ["Moisturizer"] else []) ++
  (if ¬ products.any (fun p => p.type == "SPF") then ["Sunscreen"] else [])

/-- The letter-grade cutoffs of `analyzeShelfHealth`. -/
def gradeOf (score : ℤ) : String :=
  if 90 ≤ score then "S"
  else if 80 ≤ score then "A"
  else if 70 ≤ score then "B"
  else if 50 ≤ score then "C"
  else "D"

/-- The shelf analysis record (`redundancies` and `synergies` are never
pushed to by the source and are omitted). -/
structure ShelfAnalysis where
  riskyProducts : List (String × String)
  conflicts : List String
  missing : List String
  balExfoliation : ℚ
  balHydration : ℚ
  balProtection : ℚ
  balTreatment : ℚ
  grade : String
  criticalInsight : String
  hasMakeup : Bool
deriving DecidableEq

/-- Result of `analyzeShelfHealth`. -/
structure ShelfResult where
  score : ℤ
  analysis : ShelfAnalysis
deriving DecidableEq

/-- `analyzeShelfHealth` (`src/services/geminiService.ts` 439–549). -/
def analyzeShelfHealth (products : List Product) (up : UserProfile) : ShelfResult :=
  if products = [] then
    ⟨0, ⟨[], [], [], 0, 0, 0, 0, "D", "Shelf is empty.", false⟩⟩
  else
    let risky := shelfRiskyProducts products up
    let conflicts := shelfConflicts products
    let missing := shelfMissing products
    let score0 : ℤ := 100 - risky.length * 15 - conflicts.length * 20 - missing.length * 10
    let sensitiveOverExf := up.biometrics.redness < 60 ∧ 1 < exfoliantCount products
    let dryUnderHyd := up.biometrics.hydration < 50 ∧ hydrationCount products < 1
    let score1 :=
      if sensitiveOverExf then score0 - 20
      else if dryUnderHyd then score0 - 20
      else score0
    let insight :=
      if sensitiveOverExf then "Routine is too aggressive for your sensitive skin."
      else if dryUnderHyd then "Severe lack of hydration for dry skin type."
      else if missing.length = 0 ∧ conflicts.length = 0 then "Excellent routine balance and coverage."
      else if 0 < conflicts.length then "Chemical conflicts detected. Separate actives to AM/PM."
      else if 0 < missing.length then "Incomplete routine. Missing " ++ missing.headD "" ++ "."
      else "Solid foundation, consider targeting specific concerns."
    let score2 := max 0 (min 100 score1)
    ⟨score2,
     ⟨risky, conflicts, missing,
      min 100 ((exfoliantCount products : ℚ) / 2 * 100),
      min 100 ((hydrationCount products : ℚ) / 3 * 100),
      min 100 ((protectionCount products : ℚ) / 2 * 100),
      min 100 ((treatmentCount products : ℚ) / 2 * 100),
      gradeOf score2, insight,
      decide (0 < (products.filter (fun p => makeupTypes.contains p.type)).length)⟩⟩

end Gemini

/-- Two exfoliating serums for the C5 counterexample shelf. -/
def prodGly1 : Gemini.Product := ⟨"Exfoliating Serum A", "BrandA", ["Glycolic Acid"], 80, "SERUM"⟩

/-- Second exfoliating serum for the C5 counterexample shelf. -/
def prodGly2 : Gemini.Product := ⟨"Exfoliating Serum B", "BrandB", ["Glycolic Acid"], 80, "SERUM"⟩

/-- Sensitive-skin profile (`redness = 55 < 60`) for the C5 counterexample. -/
def profile5 : UserProfile := ⟨⟨78, 80, 80, 80, 80, 80, 80, 80, 80, 55, 80, 80, 80, 80⟩, none⟩

/-- Detected face bounds: the output of `detectFaceBounds`. -/
structure FaceBounds where
  cx : ℚ
  cy : ℚ
  faceWidth : ℚ
  faceHeight : ℚ
deriving DecidableEq

/-- A captured frame, modelled by the observations `validateFrame` makes of
it: its dimensions, the face bounds returned by `detectFaceBounds`, and the
luma `0.299·r + 0.587·g + 0.114·b` of the pixel sampled at the detected
face centre. -/
structure FrameObs where
  width : ℚ
  height : ℚ
  bounds : FaceBounds
  centerLuma : ℚ
deriving DecidableEq

/-- The comparison `Math.sqrt s > t` for `s ≥ 0`, carried out inside ℚ:
true iff `t < 0` or `t² < s`. -/
def sqrtGT (s t : ℚ) : Bool := if t < 0 then true else decide (t ^ 2 < s)

namespace VisionV2

/-- Result record of the guide-do-not-gatekeep `validateFrame`. -/
structure VFResult where
  isGood : Bool
  message : String
  facePos : Option (ℚ × ℚ)
  instruction : Option String
  status : String
deriving DecidableEq

/-- `validateFrame` as in `src/unnamed/part_002` lines 9–67 and (identical)
`src/services/geminiService.ts` lines 764–814: the only `isGood = false`
exit is face loss (`faceWidth < width*0.1`); position, lighting and
stability problems only downgrade `status`/`message`/`instruction`,
each later check overwriting the earlier one. -/
def validateFrame (f : FrameObs) (lastFacePos : Option (ℚ × ℚ)) : VFResult :=
  if f.bounds.faceWidth < f.width * (1/10) then
    ⟨false, "No Face", none, some "Position face in circle", "ERROR"⟩
  else
    let s1 : String × String × String :=
      if f.bounds.faceWidth < f.width * (2/10) then ("WARNING", "Move Closer", "Move Closer")
      else if f.width * (85/100) < f.bounds.faceWidth then
        ("WARNING", "Too Close", "Back up slightly")
      else ("OK", "Perfect", "Hold steady...")
    let s2 :=
      if f.centerLuma < 30 then ("WARNING", "Low Light", "Face light source")
      else if 240 < f.centerLuma then ("WARNING", "Too Bright", "Reduce glare")
      else s1
    let s3 :=
      match lastFacePos with
      | some lp =>
          if sqrtGT ((f.bounds.cx - lp.1) ^ 2 + (f.bounds.cy - lp.2) ^ 2) (f.width * (15/100))
          then ("WARNING", "Hold Still", "Hold Still")
          else s2
      | none => s2
    ⟨true, s3.2.1, some (f.bounds.cx, f.bounds.cy), some s3.2.2, s3.1⟩

end VisionV2

namespace VisionV1

/-- Result record of the `validateFrame` in `src/services/visionService.ts`. -/
structure VFResult where
  isGood : Bool
  message : String
  facePos : Option (ℚ × ℚ)
deriving DecidableEq

/-- The jitter test of `src/services/visionService.ts` `validateFrame`:
`sqrt((cx-last.cx)² + (cy-last.cy)²) > width * 0.03` when a last position
exists. -/
def jitterTooHigh (f : FrameObs) (lastFacePos : Option (ℚ × ℚ)) : Bool :=
  match lastFacePos with
  | some lp =>
      sqrtGT ((f.bounds.cx - lp.1) ^ 2 + (f.bounds.cy - lp.2) ^ 2) (f.width * (3/100))
  | none => false

/-- `validateFrame` from `src/services/visionService.ts` lines 7–33: this
variant returns `isGood = false` for a small face, for jitter, and for
too-dark / too-bright lighting. -/
def validateFrame (f : FrameObs) (lastFacePos : Option (ℚ × ℚ)) : VFResult :=
  if f.bounds.faceWidth < f.width * (25/100) then ⟨false, "Move Closer", none⟩
  else if jitterTooHigh f lastFacePos then
    ⟨false, "Hold Still", some (f.bounds.cx, f.bounds.cy)⟩
  else if f.centerLuma < 40 then
    ⟨false, "Lighting Too Dark", some (f.bounds.cx, f.bounds.cy)⟩
  else if 240 < f.centerLuma then
    ⟨false, "Lighting Too Bright", some (f.bounds.cx, f.bounds.cy)⟩
  else ⟨true, "Scanning...", some (f.bounds.cx, f.bounds.cy)⟩

end VisionV1

/-- A well-lit-face frame except for low light: width 100, detected face
width 50 (face clearly present), centre luma 20. -/
def frame6 : FrameObs := ⟨100, 100, ⟨50, 50, 50, 135/2⟩, 20⟩

namespace Gemini

/-- The per-channel `observations` object of the AI response schema. -/
structure Observations where
  acneActive : Option String
  redness : Option String
  hydration : Option String
  wrinkleFine : Option String
deriving DecidableEq

/-- The dynamic (JSON-shaped) skin-metrics record flowing through
`analyzeFaceSkin`: a missing numeric field is `none`, and a JS `NaN`
produced by arithmetic on `undefined` is also modelled as `none`.  The
`timestamp` field (`Date.now()`, wall clock) is omitted. -/
structure MetricsRecord where
  overallScore : Option ℚ
  acneActive : Option ℚ
  acneScars : Option ℚ
  poreSize : Option ℚ
  blackheads : Option ℚ
  wrinkleFine : Option ℚ
  wrinkleDeep : Option ℚ
  sagging : Option ℚ
  pigmentation : Option ℚ
  redness : Option ℚ
  texture : Option ℚ
  hydration : Option ℚ
  oiliness : Option ℚ
  darkCircles : Option ℚ
  analysisSummary : Option String
  observations : Option Observations
  skinAge : Option ℚ
deriving DecidableEq

/-- JS numeric truthiness: `undefined` and `0` are falsy. -/
def jsTruthyNum : Option ℚ → Bool
  | none => false
  | some v => decide (v ≠ 0)

/-- `getFallbackSkinMetrics` (`src/services/geminiService.ts` 74–90): the
local estimate annotated as offline analysis when it exists, else the fixed
baseline profile. -/
def getFallbackSkinMetrics (localMetrics : Option MetricsRecord) : MetricsRecord :=
  match localMetrics with
  | some lm =>
      { lm with
        analysisSummary := some "Offline Analysis: Based on computer vision metrics only.",
        observations := some ⟨none, some "Visible markers detected.", some "Requires monitoring.", none⟩ }
  | none =>
      ⟨some 78, some 85, some 80, some 72, some 75, some 88, some 95, some 90,
       some 70, some 65, some 75, some 60, some 55, some 68,
       some "Offline Analysis: Skin appears generally healthy with mild sensitivity markers.",
       some ⟨none, some "Mild redness detected.", some "Skin appears slightly dehydrated.", none⟩,
       none⟩

/-- `if (!aiData.overallScore) throw new Error("Invalid AI Response")`:
only a falsy (missing or zero) `overallScore` invalidates the response. -/
def aiResponseInvalid (resp : MetricsRecord) : Bool := !jsTruthyNum resp.overallScore

/-- Per-channel blend lifted to possibly-missing values: arithmetic with
`undefined` yields `NaN` and `Math.round(NaN)` is `NaN`. -/
def blendOpt (l a : Option ℚ) : Option ℚ :=
  match l, a with
  | some lv, some av => some ((blend lv av : ℤ) : ℚ)
  | _, _ => none

/-- JS `a || b` on numbers. -/
def jsOrNum (a b : Option ℚ) : Option ℚ := if jsTruthyNum a then a else b

/-- The `finalMetrics` record built when a local estimate exists:
`{...aiData, <each channel blended>, skinAge: aiData.skinAge ||
localMetrics.skinAge}` (summary and observations stay the AI ones). -/
def blendWithLocal (lm resp : MetricsRecord) : MetricsRecord :=
  { resp with
    overallScore := blendOpt lm.overallScore resp.overallScore,
    acneActive := blendOpt lm.acneActive resp.acneActive,
    acneScars := blendOpt lm.acneScars resp.acneScars,
    poreSize := blendOpt lm.poreSize resp.poreSize,
    blackheads := blendOpt lm.blackheads resp.blackheads,
    wrinkleFine := blendOpt lm.wrinkleFine resp.wrinkleFine,
    wrinkleDeep := blendOpt lm.wrinkleDeep resp.wrinkleDeep,
    sagging := blendOpt lm.sagging resp.sagging,
    pigmentation := blendOpt lm.pigmentation resp.pigmentation,
    redness := blendOpt lm.redness resp.redness,
    texture := blendOpt lm.texture resp.texture,
    hydration := blendOpt lm.hydration resp.hydration,
    oiliness := blendOpt lm.oiliness resp.oiliness,
    darkCircles := blendOpt lm.darkCircles resp.darkCircles,
    skinAge := jsOrNum resp.skinAge lm.skinAge }

/-- The body of the `analyzeFaceSkin` operation after the AI response
`resp` is parsed: throw on a falsy `overallScore`, else blend with the
local estimate (or pass the response through). -/
def attemptAnalyze (resp : MetricsRecord) (localMetrics : Option MetricsRecord) :
    Except Unit MetricsRecord :=
  if aiResponseInvalid resp then Except.error ()
  else Except.ok
    (match localMetrics with
     | some lm => blendWithLocal lm resp
     | none => resp)

/-- `runWithRetry` (`src/services/geminiService.ts` 58–70) specialised to a
present (truthy) fallback value: a thrown error is caught and replaced by
the fallback, never propagated. -/
def runWithRetry (r : Except Unit MetricsRecord) (fallbackValue : MetricsRecord) :
    MetricsRecord :=
  match r with
  | Except.ok v => v
  | Except.error _ => fallbackValue

/-- `analyzeFaceSkin` response handling (`src/services/geminiService.ts`
112–213), as a function of the parsed AI response and the optional local
estimate. -/
def analyzeFaceSkin (resp : MetricsRecord) (localMetrics : Option MetricsRecord) :
    MetricsRecord :=
  runWithRetry (attemptAnalyze resp localMetrics) (getFallbackSkinMetrics localMetrics)

end Gemini

/-- A complete local (computer-vision) estimate: every channel 70. -/
def local8 : Gemini.MetricsRecord :=
  ⟨some 70, some 70, some 70, some 70, some 70, some 70, some 70, some 70,
   some 70, some 70, some 70, some 70, some 70, some 70, none, none, none⟩

/-- An AI response with a truthy `overallScore` but a missing `redness`
channel (one of the 13 key metric fields). -/
def resp8 : Gemini.MetricsRecord :=
  ⟨some 80, some 80, some 80, some 80, some 80, some 80, some 80, some 80,
   some 80, none, some 80, some 80, some 80, some 80, none, none, none⟩

/-- An AI response with a missing `overallScore` (the falsy-check field). -/
def respBad : Gemini.MetricsRecord :=
  ⟨none, some 80, some 80, some 80, some 80, some 80, some 80, some 80,
   some 80, some 80, some 80, some 80, some 80, some 80, none, none, none⟩

/-- Concrete metrics exhibiting the avoid-list divergence between the two
prescription implementations (`acneActive = 60 < 65`). -/
def m1 : SkinMetrics := ⟨78, 60, 80, 80, 80, 80, 80, 80, 80, 80, 80, 80, 80, 80⟩

/-- Concrete metrics whose report prescription is
`[Salicylic Acid, Benzoyl Peroxide, Centella, Panthenol]`
(top concerns `acneActive`, `redness`, `acneScars`): under the allocator,
`Benzoyl Peroxide` becomes an alternative of `CLEANSER_PM` and the primary
of `TREATMENT_PM`. -/
def m0 : SkinMetrics := ⟨78, 80, 85, 85, 85, 85, 85, 85, 85, 80, 85, 85, 85, 85⟩

/-- C3: `normalizeScore(raw)` equals `floor(clamp(raw, 18, 98))`, its result
always lies in `[18, 98]`, and it is monotonic non-decreasing in `raw`. -/
theorem c3_normalize_clamped_monotone :
    (∀ r : ℚ, Vision.normalizeScore r = ⌊max 18 (min 98 r)⌋ ∧
      18 ≤ Vision.normalizeScore r ∧ Vision.normalizeScore r ≤ 98) ∧
    (∀ a b : ℚ, a ≤ b → Vision.normalizeScore a ≤ Vision.normalizeScore b) := by
  constructor
  · intro r
    refine ⟨rfl, ?_, ?_⟩
    · rw [Vision.normalizeScore, Int.le_floor]
      calc ((18:ℤ):ℚ) = (18:ℚ) := by norm_num
        _ ≤ max 18 (min 98 r) := le_max_left _ _
    · have h1 : max (18:ℚ) (min 98 r) ≤ 98 :=
        max_le (by norm_num) (min_le_left _ _)
      have h2 : (⌊max (18:ℚ) (min 98 r)⌋ : ℤ) ≤ ⌊(98:ℚ)⌋ :=
        Int.floor_le_floor h1
      simpa using h2
  · intro a b hab
    apply Int.floor_le_floor
    exact max_le_max le_rfl (min_le_min le_rfl hab)

/-- Witness for C3 at concrete inputs. -/
theorem c3_normalize_clamped_monotone_witness :
    Vision.normalizeScore 3 ≤ Vision.normalizeScore 120 :=
  c3_normalize_clamped_monotone.2 3 120 (by norm_num)

/-- C4 counterexample: over the JS numbers (modelled as rationals),
`blend(x, x) = x` fails at the numeric input `x = 1/2`:
`blend(0.5, 0.5) = Math.round(0.5) = 1 ≠ 0.5`. -/
theorem c4_blend_fixpoint_counterexample :
    Gemini.blend (1/2) (1/2) = 1 ∧ ((1:ℚ) ≠ (1/2 : ℚ)) := by
  constructor
  · show jsRound ((1/2 : ℚ) * (20/100) + (1/2 : ℚ) * (80/100)) = 1
    rw [jsRound]
    norm_num
  · norm_num

/-- C4 (amended): `blend(local, ai) = round(local*0.2 + ai*0.8)` for all
numeric inputs, and `blend(x, x) = x` for every integer `x` (every canonical
metric channel value; for half-integer numeric `x` the blend rounds up). -/
theorem c4_blend_formula_and_integer_fixpoint :
    (∀ l a : ℚ, Gemini.blend l a = jsRound (l * (20/100) + a * (80/100))) ∧
    (∀ x : ℤ, Gemini.blend (x : ℚ) (x : ℚ) = x) := by
  constructor
  · intro l a; rfl
  · intro x
    have h : ((x:ℚ) * (20/100) + (x:ℚ) * (80/100)) = (x:ℚ) := by ring
    rw [Gemini.blend, h, jsRound, add_comm, Int.floor_add_int]
    norm_num

theorem length_insertAsc (x : Concern) (l : List Concern) :
    (insertAsc x l).length = l.length + 1 := by
  induction l with
  | nil => rfl
  | cons y ys ih =>
    rw [insertAsc]
    split
    · simp [ih]
    · simp

theorem length_sortAsc (l : List Concern) : (sortAsc l).length = l.length := by
  induction l with
  | nil => rfl
  | cons x xs ih => rw [sortAsc, length_insertAsc, ih]; rfl

theorem length_nudge (cid : String) (amt : ℤ) (l : List Concern) :
    (nudge cid amt l).length = l.length := by
  induction l with
  | nil => rfl
  | cons c cs ih =>
    rw [nudge]
    split
    · rfl
    · simp [ih]

theorem length_applyGoalNudges (goals : List String) (l : List Concern) :
    (applyGoalNudges goals l).length = l.length := by
  simp only [applyGoalNudges]
  split_ifs <;> simp [length_nudge]

theorem length_reportGoalStep (goals : List String) (l : List Concern) :
    (reportGoalStep goals l).length = l.length := by
  rw [reportGoalStep]
  split
  · exact length_applyGoalNudges goals l
  · rfl

theorem length_rankedG (m : SkinMetrics) (goals : List String) :
    (rankedConcernsG m goals).length = 13 := by
  rw [rankedConcernsG, length_sortAsc, length_applyGoalNudges, clinicalGravity, List.length_map]
  rfl

theorem length_rankedR (m : SkinMetrics) (goals : List String) :
    (rankedConcernsR m goals).length = 13 := by
  rw [rankedConcernsR, length_sortAsc, length_reportGoalStep, clinicalGravity, List.length_map]
  rfl

theorem ranked_service_eq_report (m : SkinMetrics) (goals : List String) :
    rankedConcernsG m goals = rankedConcernsR m goals := by
  cases goals with
  | nil => rfl
  | cons g gs => rw [rankedConcernsG, rankedConcernsR, reportGoalStep, if_pos (by simp)]

theorem concernPairs_names (cid : String) :
    (Report.concernPairs cid).map Report.RxIngredient.name = Gemini.concernActives cid := by
  rw [Report.concernPairs, Gemini.concernActives]
  simp only [apply_ite (List.map Report.RxIngredient.name)]
  rfl

theorem pushPairs_names (l : List Concern) :
    (Report.pushPairs l).map Report.RxIngredient.name = Gemini.pushActives l := by
  induction l with
  | nil => rfl
  | cons c cs ih =>
    rw [Report.pushPairs, Gemini.pushActives, List.map_append, concernPairs_names, ih]

theorem dedupPairs_names (xs : List Report.RxIngredient) :
    ∀ seen : List String,
      (Report.dedupPairs seen xs).map Report.RxIngredient.name
        = dedupStrings seen (xs.map Report.RxIngredient.name) := by
  induction xs with
  | nil => intro seen; rfl
  | cons x xs ih =>
    intro seen
    simp only [Report.dedupPairs, List.map_cons, dedupStrings]
    split_ifs with h
    · exact ih seen
    · simp only [List.map_cons, ih]

/-- C1: the clinical prescription is a pure, deterministic function of
(metrics, preferences) — recomputing on identical inputs yields identical
output — and the top-concern list has exactly 3 entries.  This holds for
both the service-layer `getClinicalPrescription` and the report memo
`prescription`.  Neither embedded definition takes any randomness or clock
input. -/
theorem c1_prescription_deterministic (up : UserProfile) :
    (Gemini.getClinicalPrescription up = Gemini.getClinicalPrescription up ∧
      (Gemini.getClinicalPrescription up).topConcerns.length = 3) ∧
    (Report.prescription up.biometrics up.preferences
        = Report.prescription up.biometrics up.preferences ∧
      (Report.prescription up.biometrics up.preferences).topConcerns.length = 3) := by
  refine ⟨⟨rfl, ?_⟩, ⟨rfl, ?_⟩⟩
  · simp [Gemini.getClinicalPrescription, List.length_take, length_rankedG]
  · simp [Report.prescription, List.length_take, length_rankedR]

/-- C10 counterexample: at `m1` the service-layer prescription and the
report-memo prescription disagree on the avoid-list (the component version
adds `Mineral Oil`). -/
theorem c10_counterexample :
    (Gemini.getClinicalPrescription ⟨m1, none⟩).avoid = ["Coconut Oil", "Shea Butter"] ∧
    (Report.prescription m1 none).avoid = ["Coconut Oil", "Shea Butter", "Mineral Oil"] ∧
    (Gemini.getClinicalPrescription ⟨m1, none⟩).avoid ≠ (Report.prescription m1 none).avoid := by
  refine ⟨by decide, by decide, by decide⟩

/-- C10 (amended): the two implementations agree on the top-3 concern
identifiers (same order) and on the prescribed ingredient names (same
order) for every input; their avoid-lists agree whenever
`acneActive ≥ 65` and `oiliness ≥ 55` (otherwise the report version appends
`Mineral Oil`, and fires on low oiliness alone, unlike the service
version). -/
theorem c10_prescriptions_agree (m : SkinMetrics) (prefs : Option UserPreferences) :
    (Gemini.getClinicalPrescription ⟨m, prefs⟩).topConcerns
      = (Report.prescription m prefs).topConcerns.map Concern.id ∧
    (Gemini.getClinicalPrescription ⟨m, prefs⟩).prescribedActives
      = (Report.prescription m prefs).ingredients.map Report.RxIngredient.name ∧
    (65 ≤ m.acneActive → 55 ≤ m.oiliness →
      (Gemini.getClinicalPrescription ⟨m, prefs⟩).avoid = (Report.prescription m prefs).avoid) := by
  refine ⟨?_, ?_, ?_⟩
  · simp only [Gemini.getClinicalPrescription, Report.prescription]
    rw [ranked_service_eq_report]
  · simp only [Gemini.getClinicalPrescription, Report.prescription]
    rw [ranked_service_eq_report, List.map_take, dedupPairs_names, pushPairs_names]
  · intro h1 h2
    have ha : ¬ (m.acneActive < 65) := not_lt.mpr h1
    have hb : ¬ (m.acneActive < 65 ∨ m.oiliness < 55) := by omega
    simp only [Gemini.getClinicalPrescription, Report.prescription, if_neg ha, if_neg hb]

/-- Witness for the C10 amended theorem at a concrete input with
`acneActive ≥ 65` and `oiliness ≥ 55`. -/
theorem c10_prescriptions_agree_witness :
    (Gemini.getClinicalPrescription ⟨⟨78, 80, 80, 80, 80, 80, 80, 80, 80, 80, 80, 80, 80, 80⟩, none⟩).avoid
      = (Report.prescription ⟨78, 80, 80, 80, 80, 80, 80, 80, 80, 80, 80, 80, 80, 80⟩ none).avoid :=
  (c10_prescriptions_agree ⟨78, 80, 80, 80, 80, 80, 80, 80, 80, 80, 80, 80, 80, 80⟩ none).2.2
    (by decide) (by decide)

theorem fillSlot_inv (m : SkinMetrics) (needs : List Report.RxIngredient)
    (st : List (String × Report.RoutineRecommendation) × List String) (slot : Report.Slot)
    (h : Report.planUsedInv st) : Report.planUsedInv (Report.fillSlot m needs st slot) := by
  obtain ⟨hp, hm⟩ := h
  cases hpm : Report.potentialMatches slot st.2 needs with
  | nil =>
    simp only [Report.fillSlot, hpm]
    constructor
    · rw [List.pairwise_append]
      refine ⟨hp, List.pairwise_singleton _ _, ?_⟩
      intro a _ b hb
      rw [List.mem_singleton] at hb
      subst hb
      intro _ hne
      exact absurd rfl hne
    · intro e he
      rw [List.mem_append, List.mem_singleton] at he
      rcases he with h1 | h2
      · exact hm e h1
      · subst h2
        intro hne
        exact absurd rfl hne
  | cons primary rest =>
    have hmemf : primary ∈ Report.potentialMatches slot st.2 needs := by
      rw [hpm]; exact List.mem_cons_self _ _
    have hnotused : ¬ primary.name ∈ st.2 := by
      rw [Report.potentialMatches] at hmemf
      have hpred := (List.mem_filter.mp hmemf).2
      simp only [Bool.and_eq_true, decide_eq_true_eq] at hpred
      exact hpred.1.1.1
    simp only [Report.fillSlot, hpm]
    constructor
    · rw [List.pairwise_append]
      refine ⟨hp, List.pairwise_singleton _ _, ?_⟩
      intro a ha b hb
      rw [List.mem_singleton] at hb
      subst hb
      intro hA _
      obtain ⟨p, hph, hpu⟩ := hm a ha hA
      rw [hph]
      simp only [List.head?_cons]
      intro hcontra
      rw [Option.some_inj] at hcontra
      subst hcontra
      exact hnotused hpu
    · intro e he
      rw [List.mem_append, List.mem_singleton] at he
      rcases he with h1 | h2
      · intro hne
        obtain ⟨p, hph, hpu⟩ := hm e h1 hne
        exact ⟨p, hph, List.mem_append_left _ hpu⟩
      · subst h2
        intro _
        exact ⟨primary.name, rfl, List.mem_append_right _ (List.mem_singleton.mpr rfl)⟩

theorem foldl_fillSlot_inv (m : SkinMetrics) (needs : List Report.RxIngredient)
    (slots : List Report.Slot) :
    ∀ st, Report.planUsedInv st →
      Report.planUsedInv (slots.foldl (Report.fillSlot m needs) st) := by
  induction slots with
  | nil => intro st h; exact h
  | cons s ss ih =>
    intro st h
    rw [List.foldl_cons]
    exact ih _ (fillSlot_inv m needs st s h)

theorem plan_pairwise (needs : List Report.RxIngredient) (m : SkinMetrics) :
    (Report.routinePlanWith needs m).Pairwise Report.distinctPrimaries := by
  have h0 : Report.planUsedInv ([], []) :=
    ⟨List.Pairwise.nil, fun e he => absurd he (List.not_mem_nil e)⟩
  exact (foldl_fillSlot_inv m needs Report.slotsToFill ([], []) h0).1

theorem distinctPrimaries_symm : Symmetric Report.distinctPrimaries := by
  intro a b hab hB hA
  exact (hab hA hB).symm

theorem fillSlot_fst_map (m : SkinMetrics) (needs : List Report.RxIngredient)
    (st : List (String × Report.RoutineRecommendation) × List String) (slot : Report.Slot) :
    (Report.fillSlot m needs st slot).1.map Prod.fst = st.1.map Prod.fst ++ [slot.key] := by
  simp only [Report.fillSlot]
  cases Report.potentialMatches slot st.2 needs <;> simp

theorem foldl_fillSlot_keys (m : SkinMetrics) (needs : List Report.RxIngredient)
    (slots : List Report.Slot) :
    ∀ st, ((slots.foldl (Report.fillSlot m needs) st).1).map Prod.fst
      = st.1.map Prod.fst ++ slots.map Report.Slot.key := by
  induction slots with
  | nil => intro st; simp
  | cons s ss ih =>
    intro st
    rw [List.foldl_cons, ih, fillSlot_fst_map]
    simp

/-- C2 counterexample: with metrics `m0` (prescription
`[Salicylic Acid, Benzoyl Peroxide, Centella, Panthenol]`), the allocator
assigns the prescribed ingredient `Benzoyl Peroxide` to the ingredient
lists of the two distinct slots `CLEANSER_PM` (as alternative) and
`TREATMENT_PM` (as primary): the assigned sets are not disjoint. -/
theorem c2_counterexample :
    ((Report.routinePlan m0 none).find? (fun e => e.1 == "CLEANSER_PM")).map
        (fun e => e.2.ingredients) = some ["Salicylic Acid", "Benzoyl Peroxide"] ∧
    ((Report.routinePlan m0 none).find? (fun e => e.1 == "TREATMENT_PM")).map
        (fun e => e.2.ingredients) = some ["Benzoyl Peroxide"] ∧
    "Benzoyl Peroxide" ∈ (Report.prescription m0 none).ingredients.map Report.RxIngredient.name := by
  refine ⟨by decide, by decide, by decide⟩

/-- C2 (amended): for every prescription and metrics input, the *primary*
ingredients drawn from the prescription are pairwise distinct across slots:
distinct slots filled from the prescription (`actionType ≠ "Essential
Step"`) have distinct primary (first-listed) ingredients.  The `used` set
only receives primaries, so the up-to-2 alternatives may still recur in
other slots. -/
theorem c2_primaries_distinct (needs : List Report.RxIngredient) (m : SkinMetrics)
    (k1 k2 : String) (r1 r2 : Report.RoutineRecommendation)
    (h1 : (k1, r1) ∈ Report.routinePlanWith needs m)
    (h2 : (k2, r2) ∈ Report.routinePlanWith needs m)
    (hk : k1 ≠ k2)
    (ha1 : r1.actionType ≠ "Essential Step")
    (ha2 : r2.actionType ≠ "Essential Step") :
    r1.ingredients.head? ≠ r2.ingredients.head? := by
  have hpw := plan_pairwise needs m
  have hne : (k1, r1) ≠ (k2, r2) := fun he => hk (congrArg Prod.fst he)
  exact (hpw.forall distinctPrimaries_symm) h1 h2 hne ha1 ha2

/-- Witness for C2 (amended) at `m0`: the primaries of `CLEANSER_PM`
(Salicylic Acid) and `TREATMENT_PM` (Benzoyl Peroxide) differ. -/
theorem c2_primaries_distinct_witness :
    (⟨["Salicylic Acid", "Benzoyl Peroxide"], "CLEANSER", "Milky Lotion",
        "Unclogs pores & clears acne.", "Wash-off Treatment"⟩ :
      Report.RoutineRecommendation).ingredients.head?
      ≠ (⟨["Benzoyl Peroxide"], "TREATMENT", "Spot Gel",
        "Kills acne bacteria.", "Leave-on Active"⟩ :
      Report.RoutineRecommendation).ingredients.head? :=
  c2_primaries_distinct (Report.prescription m0 none).ingredients m0
    "CLEANSER_PM" "TREATMENT_PM" _ _ (by decide) (by decide)
    (by decide) (by decide) (by decide)

/-- C9: only the primary match is added to the used-ingredient set; the
alternatives are not.  Concretely at `m0`: `Benzoyl Peroxide` is a
prescribed ingredient, appears as a non-primary alternative of
`CLEANSER_PM` (whose primary is Salicylic Acid), and nevertheless becomes
the primary of the later slot `TREATMENT_PM` — the same prescribed name
appears in the ingredient lists of two different slots. -/
theorem c9_alternatives_reused :
    "Benzoyl Peroxide" ∈ (Report.prescription m0 none).ingredients.map Report.RxIngredient.name ∧
    ((Report.routinePlan m0 none).find? (fun e => e.1 == "CLEANSER_PM")).map
        (fun e => e.2.ingredients.head?) = some (some "Salicylic Acid") ∧
    ((Report.routinePlan m0 none).find? (fun e => e.1 == "CLEANSER_PM")).map
        (fun e => decide ("Benzoyl Peroxide" ∈ e.2.ingredients)) = some true ∧
    ((Report.routinePlan m0 none).find? (fun e => e.1 == "TREATMENT_PM")).map
        (fun e => e.2.ingredients.head?) = some (some "Benzoyl Peroxide") := by
  refine ⟨by decide, by decide, by decide, by decide⟩

/-- C7 counterexample: the claimed processing order — the three PM
serum/cleanser/treatment slots first, then *all* AM slots, then the
remaining PM slots — is false for `slotsToFill`: the AM slot `SPF_AM`
(index 8) is processed *after* the remaining PM slots `TONER_PM` (index 6)
and `MOISTURIZER_PM` (index 7). -/
theorem c7_counterexample :
    ¬ (∀ (i j : Fin Report.slotsToFill.length),
        (Report.slotsToFill.get i).time = "AM" →
        (Report.slotsToFill.get j).time = "PM" →
        ¬ (Report.slotsToFill.get j).key ∈ ["SERUM_PM", "CLEANSER_PM", "TREATMENT_PM"] →
        (i : ℕ) < (j : ℕ)) := by
  decide

/-- C7 (amended): the allocator fills the 9 slots in exactly the order
SERUM_PM, CLEANSER_PM, TREATMENT_PM, SERUM_AM, CLEANSER_AM, TONER_AM,
TONER_PM, MOISTURIZER_PM and finally SPF_AM; and the greedy pass lets the
earlier-processed slot win a scarce ingredient: a primary assigned at an
earlier position is never the primary of a later position. -/
theorem c7_slot_order_and_greedy (needs : List Report.RxIngredient) (m : SkinMetrics) :
    (Report.routinePlanWith needs m).map Prod.fst
      = ["SERUM_PM", "CLEANSER_PM", "TREATMENT_PM", "SERUM_AM", "CLEANSER_AM",
         "TONER_AM", "TONER_PM", "MOISTURIZER_PM", "SPF_AM"] ∧
    ∀ (i j : Fin (Report.routinePlanWith needs m).length), i < j →
      ((Report.routinePlanWith needs m).get i).2.actionType ≠ "Essential Step" →
      ((Report.routinePlanWith needs m).get j).2.actionType ≠ "Essential Step" →
      ((Report.routinePlanWith needs m).get i).2.ingredients.head?
        ≠ ((Report.routinePlanWith needs m).get j).2.ingredients.head? := by
  constructor
  · rw [Report.routinePlanWith, foldl_fillSlot_keys]
    rfl
  · intro i j hij
    exact List.pairwise_iff_get.mp (plan_pairwise needs m) i j hij

/-- Witness for C7 (amended) at `m0`, positions 1 (`CLEANSER_PM`) and
2 (`TREATMENT_PM`). -/
theorem c7_slot_order_and_greedy_witness :
    ((Report.routinePlanWith (Report.prescription m0 none).ingredients m0).get
        ⟨1, by decide⟩).2.ingredients.head?
      ≠ ((Report.routinePlanWith (Report.prescription m0 none).ingredients m0).get
        ⟨2, by decide⟩).2.ingredients.head? :=
  (c7_slot_order_and_greedy (Report.prescription m0 none).ingredients m0).2
    ⟨1, by decide⟩ ⟨2, by decide⟩ (by decide) (by decide) (by decide)

theorem gradeOf_spec (s : ℤ) :
    (Gemini.gradeOf s = "S" ↔ 90 ≤ s) ∧
    (Gemini.gradeOf s = "A" ↔ 80 ≤ s ∧ s < 90) ∧
    (Gemini.gradeOf s = "B" ↔ 70 ≤ s ∧ s < 80) ∧
    (Gemini.gradeOf s = "C" ↔ 50 ≤ s ∧ s < 70) ∧
    (Gemini.gradeOf s = "D" ↔ s < 50) := by
  rw [Gemini.gradeOf]
  split_ifs <;>
    refine ⟨?_, ?_, ?_, ?_, ?_⟩ <;>
    constructor <;>
    intro hh <;>
    first
      | assumption
      | rfl
      | omega
      | exact absurd hh (by decide)

/-- C5 counterexample: a shelf of two glycolic-acid serums with a
sensitive-skin profile (redness 55 < 60, so both products are risky and the
shelf is over-exfoliated).  The claimed formula gives
100 − 15·2 − 20·0 − 10·3 = 40, but `analyzeShelfHealth` scores 20, because
of the extra −20 sensitive-skin/over-exfoliation penalty the claim omits. -/
theorem c5_counterexample :
    (Gemini.analyzeShelfHealth [prodGly1, prodGly2] profile5).score = 20 ∧
    (Gemini.shelfRiskyProducts [prodGly1, prodGly2] profile5).length = 2 ∧
    (Gemini.shelfConflicts [prodGly1, prodGly2]).length = 0 ∧
    (Gemini.shelfMissing [prodGly1, prodGly2]).length = 3 ∧
    ((100 : ℤ) - 2 * 15 - 0 * 20 - 3 * 10) = 40 ∧
    (20 : ℤ) ≠ 40 := by
  refine ⟨by decide, by decide, by decide, by decide, by decide, by decide⟩

/-- C5 (amended): for every non-empty shelf, the composite score equals
100 − 15 per risky entry (including the makeup-SPF-reliance entry) − 20 per
conflict − 10 per missing entry (including the double-cleanse entry), minus
an additional 20 when the profile is sensitive (redness < 60) with more
than one exfoliant product, or else dry (hydration < 50) with no hydrating
product, clamped to [0, 100]; and the letter grade follows the fixed
cutoffs S ≥ 90, A ≥ 80, B ≥ 70, C ≥ 50, else D. -/
theorem c5_shelf_score_and_grades (products : List Gemini.Product) (up : UserProfile)
    (h : products ≠ []) :
    ((Gemini.analyzeShelfHealth products up).score
      = max 0 (min 100 (100
          - (Gemini.shelfRiskyProducts products up).length * 15
          - (Gemini.shelfConflicts products).length * 20
          - (Gemini.shelfMissing products).length * 10
          - (if up.biometrics.redness < 60 ∧ 1 < Gemini.exfoliantCount products then 20
             else if up.biometrics.hydration < 50 ∧ Gemini.hydrationCount products < 1 then 20
             else 0)))) ∧
    ((Gemini.analyzeShelfHealth products up).analysis.grade = "S"
       ↔ 90 ≤ (Gemini.analyzeShelfHealth products up).score) ∧
    ((Gemini.analyzeShelfHealth products up).analysis.grade = "A"
       ↔ 80 ≤ (Gemini.analyzeShelfHealth products up).score ∧
         (Gemini.analyzeShelfHealth products up).score < 90) ∧
    ((Gemini.analyzeShelfHealth products up).analysis.grade = "B"
       ↔ 70 ≤ (Gemini.analyzeShelfHealth products up).score ∧
         (Gemini.analyzeShelfHealth products up).score < 80) ∧
    ((Gemini.analyzeShelfHealth products up).analysis.grade = "C"
       ↔ 50 ≤ (Gemini.analyzeShelfHealth products up).score ∧
         (Gemini.analyzeShelfHealth products up).score < 70) ∧
    ((Gemini.analyzeShelfHealth products up).analysis.grade = "D"
       ↔ (Gemini.analyzeShelfHealth products up).score < 50) := by
  have hgrade : (Gemini.analyzeShelfHealth products up).analysis.grade
      = Gemini.gradeOf (Gemini.analyzeShelfHealth products up).score := by
    simp only [Gemini.analyzeShelfHealth, if_neg h]
  constructor
  · simp only [Gemini.analyzeShelfHealth, if_neg h]
    split_ifs <;> omega
  · rw [hgrade]
    exact gradeOf_spec _

/-- Witness for C5 (amended) on the concrete two-serum shelf. -/
theorem c5_shelf_score_and_grades_witness :
    (Gemini.analyzeShelfHealth [prodGly1, prodGly2] profile5).analysis.grade = "D"
      ↔ (Gemini.analyzeShelfHealth [prodGly1, prodGly2] profile5).score < 50 :=
  (c5_shelf_score_and_grades [prodGly1, prodGly2] profile5 (by decide)).2.2.2.2.2

/-- C6 counterexample: the `validateFrame` of `src/services/visionService.ts`
(one of the claim's cited implementations) returns `isGood = false` on a
frame in which a face *is* detected (face width 50 ≥ 0.25·width = 25, far
above any minimum fraction), merely because the centre luma 20 is below its
low-light threshold 40. -/
theorem c6_counterexample :
    VisionV1.validateFrame frame6 none
      = ⟨false, "Lighting Too Dark", some (50, 50)⟩ ∧
    frame6.width * (25/100) ≤ frame6.bounds.faceWidth := by
  constructor
  · rw [VisionV1.validateFrame,
      if_neg (by rw [frame6]; norm_num),
      if_neg (by rw [VisionV1.jitterTooHigh]; simp),
      if_pos (by rw [frame6]; norm_num)]
    rfl
  · rw [frame6]
    norm_num

/-- C6 (amended): the guide-do-not-gatekeep behaviour holds for the
`validateFrame` of `src/unnamed/part_002` / the vision portion of
`src/services/geminiService.ts`: it returns `isGood = false` exactly when
no face is detected (`faceWidth < width·0.1`), and reports distance,
lighting and jitter problems only through message/instruction/status.  The
older variant in `src/services/visionService.ts`, however, gates on all
four conditions: it returns `isGood = false` exactly when the face is small
(`faceWidth < width·0.25`) or the centroid jitter exceeds `width·0.03` or
the centre luma is below 40 or above 240. -/
theorem c6_admissibility (f : FrameObs) (lastFacePos : Option (ℚ × ℚ)) :
    ((VisionV2.validateFrame f lastFacePos).isGood = false
      ↔ f.bounds.faceWidth < f.width * (1/10)) ∧
    ((VisionV1.validateFrame f lastFacePos).isGood = false
      ↔ (f.bounds.faceWidth < f.width * (25/100) ∨
         VisionV1.jitterTooHigh f lastFacePos = true ∨
         f.centerLuma < 40 ∨ 240 < f.centerLuma)) := by
  constructor
  · rw [VisionV2.validateFrame]
    split_ifs with h
    · exact iff_of_true rfl h
    · exact iff_of_false (by simp) h
  · rw [VisionV1.validateFrame]
    split_ifs <;> simp_all

/-- C8 counterexample: an AI response with a truthy `overallScore` but a
missing `redness` channel is *not* treated as invalid: `analyzeFaceSkin`
does not resolve to the local fallback; the missing channel propagates as
an absent (`NaN`) value instead. -/
theorem c8_counterexample :
    Gemini.aiResponseInvalid resp8 = false ∧
    resp8.redness = none ∧
    (Gemini.analyzeFaceSkin resp8 (some local8)).redness = none ∧
    (Gemini.getFallbackSkinMetrics (some local8)).redness = some 70 ∧
    Gemini.analyzeFaceSkin resp8 (some local8) ≠ Gemini.getFallbackSkinMetrics (some local8) := by
  have h1 : Gemini.aiResponseInvalid resp8 = false := by
    norm_num [Gemini.aiResponseInvalid, Gemini.jsTruthyNum, resp8]
  have h3 : (Gemini.analyzeFaceSkin resp8 (some local8)).redness = none := by
    rw [Gemini.analyzeFaceSkin, Gemini.attemptAnalyze,
      if_neg (by rw [h1]; exact Bool.false_ne_true)]
    rfl
  refine ⟨h1, rfl, h3, rfl, ?_⟩
  intro h
  have hred := congrArg Gemini.MetricsRecord.redness h
  rw [h3] at hred
  exact Option.noConfusion hred

/-- C8 (amended): only a falsy (missing or zero) `overallScore` makes
`analyzeFaceSkin` treat the response as invalid, in which case it resolves
to the deterministic fallback (the local estimate annotated as offline
analysis when present, else the fixed baseline) and the error is never
propagated; a valid response is blended with the local estimate (or passed
through), even when other key metric fields are missing. -/
theorem c8_fallback_on_invalid_overall (resp : Gemini.MetricsRecord)
    (lm : Option Gemini.MetricsRecord) :
    (Gemini.aiResponseInvalid resp = true →
      Gemini.analyzeFaceSkin resp lm = Gemini.getFallbackSkinMetrics lm) ∧
    (Gemini.aiResponseInvalid resp = false →
      Gemini.analyzeFaceSkin resp lm
        = match lm with
          | some l => Gemini.blendWithLocal l resp
          | none => resp) := by
  constructor <;> intro h <;>
    simp [Gemini.analyzeFaceSkin, Gemini.attemptAnalyze, Gemini.runWithRetry, h]

/-- Witness for C8 (amended): a response with missing `overallScore`
resolves to the annotated local fallback. -/
theorem c8_fallback_on_invalid_overall_witness :
    Gemini.analyzeFaceSkin respBad (some local8)
      = Gemini.getFallbackSkinMetrics (some local8) :=
  (c8_fallback_on_invalid_overall respBad (some local8)).1 rfl
